import Mathlib

/-!
Verification development for the loopback-component-access-groups repository.

The definitions below are a shallow embedding of the group-based
authorization core:

* `lib/utils.js` — configuration parsing (`parseConfigOptions`,
  `isValidPrincipalId`, `extractRoleName`), model classification
  (`isGroupModel`, `isGroupAccessModel`) and the membership accessor
  (`getAccessGroupsForUser`);
* `lib/role-resolvers.js` (the `AccessRoleResolvers` class) — the dynamic
  role resolver registered per access-group principal
  (`setupRoleResolver`), its basic-mode helper chain
  (`isGroupMemberWithRole`, `hasRoleInGroup`) and the extended-mode
  group-context resolution (`getCurrentGroupId`, `getTargetGroupId`);
* the `AccessModelFilters` class — the `access` operation hook
  (`setupAccessFilter`) and the query-filter construction (`buildFilter`).

Asynchronous callback/promise code is modelled by explicit result values:
an evaluation of the role resolver produces an `Outcome` together with the
final value of the per-operation `groupAccessApplied` flag, which the
source keeps on `context.remotingContext.args.options`.  JavaScript
truthiness tests on identifier values (`if (!currentGroupId)` and the
like) are modelled by `truthy` on `Option String` (absent or empty string
is falsy).  Membership records are modelled with the default field names
of the configuration (`userId`/`groupId`/`role`), which is also what the
basic-mode helper `hasRoleInGroup` hard-codes for the user field.
-/

namespace AccessGroups

/-- JavaScript truthiness of a string-or-undefined value: `undefined`,
`null` and the empty string are falsy, every other string is truthy. -/
def truthy : Option String → Bool
  | none => false
  | some s => s ≠ ""

/-! ## Configuration (`lib/utils.js`, `parseConfigOptions`) -/

/-- The recognised configuration options with the defaults applied by
`parseConfigOptions` (`lib/utils.js` lines 28-40). -/
structure Options where
  userModel : String := "User"
  userKey : String := "userId"
  groupModel : String := "Group"
  groupKey : String := "groupId"
  roleModel : String := "Role"
  groupAccessModel : String := "GroupAccess"
  groupRoles : List String := ["$group:admin", "$group:member"]
  applyToStatic : Bool := false
deriving Repr, DecidableEq

/-- Helper for `jsSplitColon`: accumulates the current segment (in
reverse) while walking the character list. -/
def splitColonAux : List Char → List Char → List String
  | [], acc => [⟨acc.reverse⟩]
  | c :: cs, acc =>
    if c = ':' then ⟨acc.reverse⟩ :: splitColonAux cs []
    else splitColonAux cs (c :: acc)

/-- JavaScript `s.split(':')`: the segments of `s` between colons
(`''.split(':')` is `['']`). -/
def jsSplitColon (s : String) : List String :=
  splitColonAux s.data []

/-- Embeds `AccessUtils.extractRoleName` (`lib/utils.js` line 177-179):
`principalId.split(':')[1]`; the index may be out of range, which in
JavaScript yields `undefined`, modelled by `none`. -/
def extractRoleName (principalId : String) : Option String :=
  (jsSplitColon principalId)[1]?

/-- Embeds `AccessUtils.isValidPrincipalId` (`lib/utils.js` line 167-169):
`Boolean(this.extractRoleName(principalId))` — truthiness of the second
split segment. -/
def isValidPrincipalId (principalId : String) : Bool :=
  truthy (extractRoleName principalId)

/-- The `groupRoles` validation loop of `parseConfigOptions`
(`lib/utils.js` lines 48-53): the first entry failing
`isValidPrincipalId` throws, aborting initialization. -/
def validateGroupRoles : List String → Except String Unit
  | [] => .ok ()
  | r :: rs =>
    if isValidPrincipalId r then validateGroupRoles rs
    else .error "$name is an invalid access group name."

/-- The `"$group:<name>"` format as the specification words it: the
`$group:` scope prefix is required and stripping it leaves a non-empty
role name.  This definition follows the spec, for comparison with the
source-side `isValidPrincipalId`. -/
def specGroupRoleFormat (s : String) : Bool :=
  "$group:".data.isPrefixOf s.data && s.data.drop 7 ≠ []

/-! ## Data model: models, instances, membership store -/

/-- A declared relation of a model (`modelClass.relations[relName]`):
its `type` and the name of the model it points to (`modelTo`). -/
structure Relation where
  relType : String
  toModelName : String
deriving Repr, DecidableEq

/-- Result of invoking a belongs-to relation accessor
(`inst[relName](callback)`): the callback receives `(error, group)`. -/
inductive RelFetch
  | err
  | notFound
  | found (groupId : String)
deriving Repr, DecidableEq

/-- A persisted model instance: its id, the value of its group foreign
key field `inst[options.groupKey]`, and the outcome of following its
belongs-to relation to the group model. -/
structure Instance where
  id : String
  groupFk : Option String := none
  relFetch : RelFetch := .notFound
deriving Repr, DecidableEq

/-- A model class descriptor: its name, its id property name
(`Model.getIdName()`), its declared relations, its stored instances, and
whether `findById` fails with an error. -/
structure ModelDesc where
  name : String
  idName : String := "id"
  relations : List Relation := []
  instances : List Instance := []
  fetchErr : Bool := false
deriving Repr, DecidableEq

/-- Embeds `AccessUtils.isGroupModel` (`lib/utils.js` lines 69-78): the model is
the configured group model (the source also accepts subclasses and the
bare model name; the embedding identifies a model class by its name). -/
def isGroupModel (cfg : Options) (m : ModelDesc) : Bool :=
  m.name = cfg.groupModel

/-- Lifts `isGroupModel` to a possibly-undefined model class argument;
the source guards with `if (modelClass)` and returns false otherwise. -/
def isGroupModelOpt (cfg : Options) : Option ModelDesc → Bool
  | none => false
  | some m => isGroupModel cfg m

/-- Embeds `AccessUtils.isGroupAccessModel` (`lib/utils.js` lines 86-95). -/
def isGroupAccessModel (cfg : Options) (m : ModelDesc) : Bool :=
  m.name = cfg.groupAccessModel

/-- Result of `modelClass.findById(modelId, cb)`. -/
inductive Fetch
  | err
  | missing
  | found (inst : Instance)
deriving Repr, DecidableEq

/-- Embeds `modelClass.findById` evaluated against the model's datastore. -/
def findById (m : ModelDesc) (id : String) : Fetch :=
  if m.fetchErr then .err
  else
    match m.instances.find? (fun i => i.id = id) with
    | some i => .found i
    | none => .missing

/-- A `GroupAccess` membership record (tuple of user id, group id and
role; `lastUsedAt` plays no part in any decision). -/
structure GroupAccess where
  userId : String
  groupId : String
  role : String
deriving Repr, DecidableEq

/-- The membership store backing the configured `groupAccessModel`:
its rows, and whether `GroupAccessModel.count` fails with an error. -/
structure Store where
  rows : List GroupAccess
  countErr : Bool := false
deriving Repr, DecidableEq

/-- Exact role comparison, as in `hasRoleInGroup`'s conditions
`{ userId, role }` (`lib/role-resolvers.js` line 241): the queried role
is `extractRoleName`'s result, possibly `undefined`, which matches no
stored string. -/
def roleMatchesExact (rowRole : String) (q : Option String) : Bool :=
  match q with
  | some s => rowRole = s
  | none => false

/-- ASCII-style lower-casing of every character (the observable effect
of a SQL `ilike` comparison on role names). -/
def jsToLower (s : String) : String :=
  ⟨s.data.map Char.toLower⟩

/-- Case-insensitive (`ilike`) role comparison, as in the extended-mode
conditions `{ role: { ilike: roleName } }` (`lib/role-resolvers.js`
line 123). -/
def roleMatchesIlike (rowRole : String) (q : Option String) : Bool :=
  match q with
  | some s => jsToLower rowRole = jsToLower s
  | none => false

/-- Embeds `GroupAccessModel.count` with exact role matching: the number of
rows matching user id, group id and role. -/
def countExact (st : Store) (u g : String) (q : Option String) : Nat :=
  (st.rows.filter
    (fun r => r.userId = u ∧ r.groupId = g ∧ roleMatchesExact r.role q)).length

/-- Embeds `GroupAccessModel.count` with `ilike` role matching: the number of
rows matching user id, group id and the role case-insensitively. -/
def countIlike (st : Store) (u g : String) (q : Option String) : Nat :=
  (st.rows.filter
    (fun r => r.userId = u ∧ r.groupId = g ∧ roleMatchesIlike r.role q)).length

/-- Embeds `AccessUtils.getAccessGroupsForUser` (`lib/utils.js` lines 135-159)
followed by the projection `Array.from(accessGroups, group =>
group[this.options.groupKey])` used by `buildFilter`: the group ids of
the user's membership rows, in store order. -/
def getAccessGroupIds (st : Store) (u : String) : List String :=
  (st.rows.filter (fun r => r.userId = u)).map (fun r => r.groupId)

/-! ## Role resolver (`lib/role-resolvers.js`, `AccessRoleResolvers`) -/

/-- Final status of a role-resolver evaluation:
`allow`/`deny` are `cb(null, true/false)`; `fail` is a rejected promise
(`cb(err)` or `.catch(cb)`); `hang` is a promise that never settles (an
async rejection with no handler, so `cb` is never invoked); `crash` is a
synchronous `TypeError` thrown outside the callback discipline. -/
inductive Outcome
  | allow
  | deny
  | fail
  | hang
  | crash
deriving Repr, DecidableEq

/-- The per-evaluation inputs drawn from the LoopBack access context:
`context.getUserId()`, `context.model`, `context.modelId`, the
`groupKey` request header consulted by `getCurrentGroupId` /
`getTargetGroupId`, and the `remotingContext.args.options` bag with the
current value of its `groupAccessApplied` flag (`none` when the
operation carries no options object). -/
structure EvalContext where
  userId : Option String := none
  model : Option ModelDesc := none
  modelId : Option String := none
  headerGroupId : Option String := none
  options : Option Bool := none
deriving Repr, DecidableEq

/-- Embeds `hasRoleInGroup` (`lib/role-resolvers.js` lines 237-252): counts the
membership rows for `(userId, role, group)` with exact role matching.
`GroupAccess.count(conditions).then(...)` carries no rejection handler,
so a count error leaves `cb` uninvoked and the returned promise never
settles (`hang`). -/
def hasRoleInGroup (st : Store) (u : String) (role : Option String)
    (g : String) : Outcome :=
  if st.countErr then .hang
  else if countExact st u g role > 0 then .allow
  else .deny

/-- The first declared relation of type `belongsTo` pointing at the
configured group model, as found by the `for (const relName in
modelClass.relations)` loop (`lib/role-resolvers.js` lines 217-230). -/
def firstBelongsToGroup (cfg : Options) (m : ModelDesc) : Option Relation :=
  m.relations.find?
    (fun r => r.relType = "belongsTo" && r.toModelName = cfg.groupModel)

/-- Embeds `isGroupMemberWithRole` (`lib/role-resolvers.js` lines 182-235).
For the group model itself the instance id is the group id.  Otherwise
the instance is fetched: a fetch error rejects (`cb(err, false)`), a
missing instance denies (`cb(null, false)`).  A truthy group foreign key
leads to `hasRoleInGroup`; otherwise the first belongs-to relation to
the group model is followed.  In that relation callback the source runs
`cb(null, this.hasRoleInGroup(...))` inside the plain strict-mode
function `processRelatedGroup`, where `this` is `undefined`, so a found
related group raises a `TypeError` (`crash`); a relation error rejects
and a missing related group denies. -/
def isGroupMemberWithRole (cfg : Options) (st : Store) (m : ModelDesc)
    (modelId : String) (u : String) (role : Option String) : Outcome :=
  if u = "" then .deny
  else if isGroupModel cfg m then hasRoleInGroup st u role modelId
  else
    match findById m modelId with
    | .err => .fail
    | .missing => .deny
    | .found inst =>
      if truthy inst.groupFk then
        hasRoleInGroup st u role (inst.groupFk.getD "")
      else
        match firstBelongsToGroup cfg m with
        | some _ =>
          match inst.relFetch with
          | .err => .fail
          | .notFound => .deny
          | .found _ => .crash
        | none => .deny

/-- Result of `getCurrentGroupId`: a rejected promise (`err`), a
synchronous `TypeError` (`crash`, from `context.model.findById` when
`context.model` is undefined), or a resolved group id value. -/
inductive GroupIdRes
  | err
  | crash
  | ok (g : Option String)
deriving Repr, DecidableEq

/-- Embeds `getCurrentGroupId` (`lib/role-resolvers.js` lines 261-305).  For the
group model the current group id is `context.modelId` directly.  Else,
with a truthy `context.modelId`, the instance is fetched: an error
rejects; a found instance contributes `item[options.groupKey]`; a
missing instance leaves `groupId` at `null`.  Else the `groupKey`
request header is used when truthy, and otherwise the result is
`null`. -/
def getCurrentGroupId (cfg : Options) (ctx : EvalContext) : GroupIdRes :=
  if isGroupModelOpt cfg ctx.model then .ok ctx.modelId
  else if truthy ctx.modelId then
    match ctx.model with
    | none => .crash
    | some m =>
      match findById m (ctx.modelId.getD "") with
      | .err => .err
      | .missing => .ok none
      | .found item => .ok item.groupFk
  else if truthy ctx.headerGroupId then .ok ctx.headerGroupId
  else .ok none

/-- Embeds `getTargetGroupId` (`lib/role-resolvers.js` lines 314-333): the
`groupKey` request header when truthy, otherwise `null`. -/
def getTargetGroupId (ctx : EvalContext) : Option String :=
  if truthy ctx.headerGroupId then ctx.headerGroupId else none

/-- One evaluation of the registered role resolver
(`setupRoleResolver`, `lib/role-resolvers.js` lines 34-172), returning
the decision outcome together with the final state of the options bag's
`groupAccessApplied` flag (`none` when no options bag exists).

Control flow of the source: extract `roleName`; deny for a falsy user id
(flag untouched); allow when `context.remotingContext.args.options` is
absent (flag never written); write `groupAccessApplied = false`; in
basic mode (`applyToStatic` false) deny unless the model class and a
truthy `modelId` are present, else decide via `isGroupMemberWithRole`
(which never touches the flag); in extended mode join
`getCurrentGroupId` and `getTargetGroupId`, allow on a falsy current
group id (`res = true`, and the trailing `if (res)` then writes
`groupAccessApplied = true`), otherwise count current-group membership
with `ilike` matching, additionally count target-group membership when a
truthy target differs from the current group, allow iff the current
count is positive and any required target count is positive, writing
`groupAccessApplied = true` exactly on allow; promise-chain errors reach
`.catch(cb)` and reject. -/
def resolve (cfg : Options) (st : Store) (role : String)
    (ctx : EvalContext) : Outcome × Option Bool :=
  let roleName := extractRoleName role
  if ¬ truthy ctx.userId then (.deny, ctx.options)
  else
    match ctx.options with
    | none => (.allow, none)
    | some _ =>
      if ¬ cfg.applyToStatic then
        match ctx.model, truthy ctx.modelId with
        | some m, true =>
          (isGroupMemberWithRole cfg st m (ctx.modelId.getD "")
            (ctx.userId.getD "") roleName, some false)
        | _, _ => (.deny, some false)
      else
        match getCurrentGroupId cfg ctx with
        | .err => (.fail, some false)
        | .crash => (.crash, some false)
        | .ok cur =>
          let tgt := getTargetGroupId ctx
          if ¬ truthy cur then (.allow, some true)
          else if st.countErr then (.fail, some false)
          else
            let u := ctx.userId.getD ""
            let res := countIlike st u (cur.getD "") roleName > 0
              && (!(truthy tgt && tgt ≠ cur)
                  || countIlike st u (tgt.getD "") roleName > 0)
            if res then (.allow, some true) else (.deny, some false)

/-! ## Query filter builder (`AccessModelFilters`) -/

/-- A single-key where predicate, `{key: value}` with the value either a
plain id or `{inq: [...]}`. -/
inductive FilterVal
  | eq (g : String)
  | inq (gs : List String)
deriving Repr, DecidableEq

/-- The object `filter` built by `buildFilter`: one key mapped to a
filter value. -/
structure BuiltFilter where
  key : String
  val : FilterVal
deriving Repr, DecidableEq

/-- Result of `buildFilter`: a filter, or the synchronous `TypeError`
raised by calling a method that does not exist on `accessUtils`. -/
inductive BuildResult
  | ok (f : BuiltFilter)
  | typeError
deriving Repr, DecidableEq

/-- Embeds `AccessModelFilters.buildFilter` (the version with the
`isUserGroupOrAccessModel` test, cited as lines 619-648 of that file).
The key is the group model's id property for the group model itself and
`options.groupKey` otherwise.  The source then evaluates
`this.accessUtils.isUserModel(Model) || this.accessUtils.isGroupModel(Model) ||
this.accessUtils.isGroupAccessModel(Model)`; the first call is a method
lookup on the `AccessUtils` object, passed here as `isUserModelFn` —
when the method is absent the lookup yields `undefined` and the call
raises a `TypeError`.  With the test available: a truthy `groupId` on a
model outside the user/group/group-access trio restricts to that group
(`{key: groupId}`); every other case restricts to the groups of the
user's membership rows (`{key: {inq: ids}}`). -/
def buildFilter (isUserModelFn : Option (ModelDesc → Bool)) (cfg : Options)
    (st : Store) (userId : String) (groupId : Option String)
    (m : ModelDesc) : BuildResult :=
  let key := if isGroupModel cfg m then m.idName else cfg.groupKey
  match isUserModelFn with
  | none => .typeError
  | some isUserModel =>
    let isUserGroupOrAccessModel := isUserModel m || isGroupModel cfg m
      || isGroupAccessModel cfg m
    if truthy groupId && !isUserGroupOrAccessModel then
      .ok ⟨key, .eq (groupId.getD "")⟩
    else
      .ok ⟨key, .inq (getAccessGroupIds st userId)⟩

/-- The `AccessUtils` class of `lib/utils.js` defines `isGroupModel` and
`isGroupAccessModel` but no `isUserModel` method, so the method lookup
performed by `buildFilter` yields `undefined`. -/
def accessUtilsIsUserModelFn : Option (ModelDesc → Bool) := none

/-- A where predicate as manipulated by the `access` hook: an existing
where tree, conjoined with built filters via `{and: [where, filter]}`. -/
inductive JsWhere
  | leaf (f : BuiltFilter)
  | conj (a b : JsWhere)
deriving Repr, DecidableEq

/-- Result of the `access`-hook query rewrite. -/
inductive HookResult
  | ok (w : Option JsWhere)
  | error
deriving Repr, DecidableEq

/-- The query rewrite of `setupAccessFilter`'s `access` hook (applied
when `currentUser` is set and `groupAccessApplied` is truthy): the built
filter is attached as `ctx.query.where = {and: [ctx.query.where,
filter]}`, or becomes the whole where clause when none existed; a
`buildFilter` failure propagates as a hook error. -/
def accessHookApplyFilter (bf : BuildResult) (existing : Option JsWhere) :
    HookResult :=
  match bf with
  | .typeError => .error
  | .ok f =>
    .ok (some (match existing with
      | some w => .conj w (.leaf f)
      | none => .leaf f))

/-! ## Concrete fixtures used by witnesses and counterexamples -/

/-- The default configuration in basic mode. -/
def cfgBasic : Options := {}

/-- The default configuration in extended mode (`applyToStatic` true). -/
def cfgExt : Options := { applyToStatic := true }

/-- The configured group model with one stored group. -/
def groupModelDesc : ModelDesc :=
  { name := "Group", instances := [{ id := "g1" }] }

/-- The configured group-access model. -/
def groupAccessModelDesc : ModelDesc := { name := "GroupAccess" }

/-- A group-content model: a `Document` with a belongs-to relation to
the group model; instance `d1` has no group foreign key but its
belongs-to relation resolves to group `g1`. -/
def documentModelDesc : ModelDesc :=
  { name := "Document"
    relations := [{ relType := "belongsTo", toModelName := "Group" }]
    instances := [{ id := "d1", groupFk := none, relFetch := .found "g1" }] }

/-- A membership store: user `u1` is an `admin` of group `g1` (stored in
upper case to exercise `ilike` matching) and a `member` of `g2`. -/
def st1 : Store :=
  { rows := [⟨"u1", "g1", "ADMIN"⟩, ⟨"u1", "g2", "member"⟩] }

/-- The same store with `count` failing. -/
def st1err : Store := { st1 with countErr := true }

/-- A store in which user `u1` is a `member` of group `g1`. -/
def stMember : Store := { rows := [⟨"u1", "g1", "member"⟩] }

/-- An extended-mode context with no resolvable group: content model, no
instance id, no group header. -/
def ctxNoGroup : EvalContext :=
  { userId := some "u1", model := some documentModelDesc, modelId := none,
    headerGroupId := none, options := some false }

/-- A context addressing group instance `g1` of the group model. -/
def ctxGroupInstance : EvalContext :=
  { userId := some "u1", model := some groupModelDesc, modelId := some "g1",
    headerGroupId := none, options := some false }

/-! ## Theorems for the claims -/

/-- C5: in either mode, an evaluation with no `currentUserId` is DENY,
terminal, with no membership or group-context lookup — the result is
`(deny, unchanged flag)` for every store, every configuration and every
model state, so no lookup can influence it. -/
theorem C5_no_user_denies (cfg : Options) (st : Store) (role : String)
    (ctx : EvalContext) (h : truthy ctx.userId = false) :
    resolve cfg st role ctx = (.deny, ctx.options) := by
  simp [resolve, h]

/-- Witness for C5 at a concrete anonymous evaluation. -/
theorem C5_no_user_denies_witness :
    truthy (EvalContext.userId { userId := none, options := some true }) = false
    ∧ resolve cfgBasic st1 "$group:admin" { userId := none, options := some true }
      = (.deny, some true) :=
  ⟨by decide,
    C5_no_user_denies cfgBasic st1 "$group:admin"
      { userId := none, options := some true } (by decide)⟩

/-- C10: with a present user id but no options object on the remoting
context, the resolver allows without resolving any group context or
querying the membership store (the result holds for every store and
configuration), and the `groupAccessApplied` flag is never written. -/
theorem C10_no_options_allows (cfg : Options) (st : Store) (role : String)
    (ctx : EvalContext) (hu : truthy ctx.userId = true)
    (ho : ctx.options = none) :
    resolve cfg st role ctx = (.allow, none) := by
  simp [resolve, hu, ho]

/-- Witness for C10 at a concrete evaluation without an options bag. -/
theorem C10_no_options_allows_witness :
    truthy (EvalContext.userId { userId := some "u1", options := none }) = true
    ∧ resolve cfgBasic st1err "$group:admin" { userId := some "u1", options := none }
      = (.allow, none) :=
  ⟨by decide,
    C10_no_options_allows cfgBasic st1err "$group:admin"
      { userId := some "u1", options := none } (by decide) rfl⟩

/-- C1 counterexample: extended mode, user present, no resolvable group
(no instance id, no header).  The decision is ALLOW and no
membership-count query is issued (the store here even fails on `count`),
but the final `groupAccessApplied` flag is `true`, not the `false` the
claim asserts: the `if (res)` commit at lines 160-165 runs for the
bypass as well. -/
theorem C1_counterexample :
    resolve cfgExt st1err "$group:member" ctxNoGroup = (.allow, some true)
    ∧ (some true : Option Bool) ≠ some false :=
  ⟨by decide, by decide⟩

/-- C1 amended: in extended mode, whenever the resolved current group id
is falsy, the decision is ALLOW with no membership-count query (the
conclusion holds for every store, failing ones included) and the
`groupAccessApplied` flag is set to `true` by the allow commit. -/
theorem C1_bypass_allows_and_sets_flag (cfg : Options) (st : Store)
    (role : String) (ctx : EvalContext) (b : Bool) (cur : Option String)
    (hmode : cfg.applyToStatic = true)
    (hu : truthy ctx.userId = true)
    (ho : ctx.options = some b)
    (hcur : getCurrentGroupId cfg ctx = .ok cur)
    (hfalsy : truthy cur = false) :
    resolve cfg st role ctx = (.allow, some true) := by
  simp [resolve, hmode, hu, ho, hcur, hfalsy]

/-- Witness for the amended C1 at the concrete bypass evaluation. -/
theorem C1_bypass_witness :
    getCurrentGroupId cfgExt ctxNoGroup = .ok none
    ∧ resolve cfgExt st1 "$group:admin" ctxNoGroup = (.allow, some true) :=
  ⟨by decide,
    C1_bypass_allows_and_sets_flag cfgExt st1 "$group:admin" ctxNoGroup
      false none (by decide) (by decide) rfl (by decide) (by decide)⟩

/-- C3: in extended mode with a truthy resolved current group id and a
working store, the decision is ALLOW exactly when the case-insensitive
membership count for the current group is positive and either no truthy
target group differs from the current group or the case-insensitive
count for the target group is positive; in every other case it is
DENY. -/
theorem C3_extended_decision (cfg : Options) (st : Store) (role : String)
    (ctx : EvalContext) (b : Bool) (cur : Option String)
    (hmode : cfg.applyToStatic = true)
    (hu : truthy ctx.userId = true)
    (ho : ctx.options = some b)
    (hcur : getCurrentGroupId cfg ctx = .ok cur)
    (htruthy : truthy cur = true)
    (hst : st.countErr = false) :
    ((resolve cfg st role ctx).1 = .allow ↔
      (0 < countIlike st (ctx.userId.getD "") (cur.getD "")
          (extractRoleName role)
        ∧ (¬(truthy (getTargetGroupId ctx) = true ∧ getTargetGroupId ctx ≠ cur)
          ∨ 0 < countIlike st (ctx.userId.getD "")
              ((getTargetGroupId ctx).getD "") (extractRoleName role))))
    ∧ ((resolve cfg st role ctx).1 = .allow
      ∨ (resolve cfg st role ctx).1 = .deny) := by
  have hshape :
      resolve cfg st role ctx =
        (if (countIlike st (ctx.userId.getD "") (cur.getD "")
              (extractRoleName role) > 0
            && (!(truthy (getTargetGroupId ctx)
                  && (getTargetGroupId ctx ≠ cur))
              || countIlike st (ctx.userId.getD "")
                  ((getTargetGroupId ctx).getD "")
                  (extractRoleName role) > 0))
          then (.allow, some true) else (.deny, some false)) := by
    simp [resolve, hmode, hu, ho, hcur, htruthy, hst]
  rw [hshape]
  by_cases hA : 0 < countIlike st (ctx.userId.getD "") (cur.getD "")
      (extractRoleName role) <;>
    by_cases hT1 : truthy (getTargetGroupId ctx) = true <;>
      by_cases hT2 : getTargetGroupId ctx = cur <;>
        by_cases hB : 0 < countIlike st (ctx.userId.getD "")
            ((getTargetGroupId ctx).getD "") (extractRoleName role) <;>
          simp [hA, hT1, hT2, hB]

/-- Witness for C3: user `u1` holds role `ADMIN` in group `g1`, so the
`ilike` test for `$group:admin` on group instance `g1` allows. -/
theorem C3_extended_decision_witness :
    st1.countErr = false
    ∧ (resolve cfgExt st1 "$group:admin" ctxGroupInstance).1 = .allow := by
  refine ⟨by decide, ?_⟩
  exact (C3_extended_decision cfgExt st1 "$group:admin" ctxGroupInstance false
    (some "g1") (by decide) (by decide) rfl (by decide) (by decide)
    (by decide)).1.mpr (by decide)

/-- Helper: a truthy optional string is a non-empty string. -/
theorem truthy_getD_ne (o : Option String) (h : truthy o = true) :
    o.getD "" ≠ "" := by
  cases o with
  | none => simp [truthy] at h
  | some s => simpa [truthy] using h

/-- C4 (code bug): basic mode on a content-model instance whose owning
group is found through its belongs-to edge.  The claim expects ALLOW
because the membership count for the resolved group is positive (second
conjunct), but the source raises a `TypeError` on that path
(`cb(null, this.hasRoleInGroup(...))` inside a strict-mode plain
callback, where `this` is `undefined`), so the decision is never the
membership predicate. -/
theorem C4_belongsTo_path_crashes :
    resolve cfgBasic stMember "$group:member"
      { userId := some "u1", model := some documentModelDesc,
        modelId := some "d1", headerGroupId := none, options := some false }
      = (.crash, some false)
    ∧ 0 < countExact stMember "u1" "g1" (extractRoleName "$group:member") :=
  ⟨by decide, by decide⟩

/-- C7 counterexample: basic mode with a failing membership store.  The
claim says the lookup error is propagated to the caller as a failure,
but `hasRoleInGroup` attaches no rejection handler to
`GroupAccess.count`, so the decision promise never settles. -/
theorem C7_counterexample :
    resolve cfgBasic st1err "$group:admin" ctxGroupInstance
      = (.hang, some false)
    ∧ Outcome.hang ≠ Outcome.fail :=
  ⟨by decide, by decide⟩

/-- C7 amended: lookup errors are never interpreted as ALLOW.  An error
while resolving the current group in extended mode, an extended-mode
membership-count error, and a basic-mode instance-fetch error are all
propagated as failures; a basic-mode membership-count error is not
propagated — the decision never settles; a missing instance is a plain
DENY, not an error. -/
theorem C7_error_outcomes :
    (∀ (cfg : Options) (st : Store) (role : String) (ctx : EvalContext)
        (b : Bool),
      cfg.applyToStatic = true → truthy ctx.userId = true →
      ctx.options = some b → getCurrentGroupId cfg ctx = .err →
      resolve cfg st role ctx = (.fail, some false))
    ∧ (∀ (cfg : Options) (st : Store) (role : String) (ctx : EvalContext)
        (b : Bool) (cur : Option String),
      cfg.applyToStatic = true → truthy ctx.userId = true →
      ctx.options = some b → getCurrentGroupId cfg ctx = .ok cur →
      truthy cur = true → st.countErr = true →
      resolve cfg st role ctx = (.fail, some false))
    ∧ (∀ (cfg : Options) (st : Store) (role : String) (ctx : EvalContext)
        (b : Bool) (m : ModelDesc),
      cfg.applyToStatic = false → truthy ctx.userId = true →
      ctx.options = some b → ctx.model = some m →
      truthy ctx.modelId = true → isGroupModel cfg m = false →
      m.fetchErr = true →
      resolve cfg st role ctx = (.fail, some false))
    ∧ (∀ (cfg : Options) (st : Store) (role : String) (ctx : EvalContext)
        (b : Bool) (m : ModelDesc),
      cfg.applyToStatic = false → truthy ctx.userId = true →
      ctx.options = some b → ctx.model = some m →
      truthy ctx.modelId = true → isGroupModel cfg m = true →
      st.countErr = true →
      resolve cfg st role ctx = (.hang, some false))
    ∧ (∀ (cfg : Options) (st : Store) (role : String) (ctx : EvalContext)
        (b : Bool) (m : ModelDesc),
      cfg.applyToStatic = false → truthy ctx.userId = true →
      ctx.options = some b → ctx.model = some m →
      truthy ctx.modelId = true → isGroupModel cfg m = false →
      findById m (ctx.modelId.getD "") = .missing →
      resolve cfg st role ctx = (.deny, some false)) := by
  refine ⟨?_, ?_, ?_, ?_, ?_⟩
  · intro cfg st role ctx b hmode hu ho hg
    simp [resolve, hmode, hu, ho, hg]
  · intro cfg st role ctx b cur hmode hu ho hg hc hse
    simp [resolve, hmode, hu, ho, hg, hc, hse]
  · intro cfg st role ctx b m hmode hu ho hm hid hgm hfe
    simp [resolve, hmode, hu, ho, hm, hid, isGroupMemberWithRole, hgm,
      findById, hfe, truthy_getD_ne ctx.userId hu]
  · intro cfg st role ctx b m hmode hu ho hm hid hgm hse
    simp [resolve, hmode, hu, ho, hm, hid, isGroupMemberWithRole, hgm,
      hasRoleInGroup, hse, truthy_getD_ne ctx.userId hu]
  · intro cfg st role ctx b m hmode hu ho hm hid hgm hfind
    simp [resolve, hmode, hu, ho, hm, hid, isGroupMemberWithRole, hgm,
      hfind, truthy_getD_ne ctx.userId hu]

/-- Content model whose `findById` fails with an error. -/
def documentModelErr : ModelDesc := { documentModelDesc with fetchErr := true }

/-- Witness for the amended C7: each of its five cases at a concrete
evaluation. -/
theorem C7_error_outcomes_witness :
    resolve cfgExt st1 "$group:admin"
      { userId := some "u1", model := some documentModelErr,
        modelId := some "d1", options := some false } = (.fail, some false)
    ∧ resolve cfgExt st1err "$group:admin" ctxGroupInstance
      = (.fail, some false)
    ∧ resolve cfgBasic st1 "$group:admin"
      { userId := some "u1", model := some documentModelErr,
        modelId := some "d1", options := some false } = (.fail, some false)
    ∧ resolve cfgBasic st1err "$group:member" ctxGroupInstance
      = (.hang, some false)
    ∧ resolve cfgBasic st1 "$group:admin"
      { userId := some "u1", model := some documentModelDesc,
        modelId := some "d9", options := some false } = (.deny, some false) :=
  ⟨C7_error_outcomes.1 cfgExt st1 "$group:admin" _ false (by decide)
      (by decide) rfl (by decide),
    C7_error_outcomes.2.1 cfgExt st1err "$group:admin" ctxGroupInstance false
      (some "g1") (by decide) (by decide) rfl (by decide) (by decide)
      (by decide),
    C7_error_outcomes.2.2.1 cfgBasic st1 "$group:admin" _ false
      documentModelErr (by decide) (by decide) rfl rfl (by decide) (by decide)
      (by decide),
    C7_error_outcomes.2.2.2.1 cfgBasic st1err "$group:member" ctxGroupInstance
      false groupModelDesc (by decide) (by decide) rfl rfl (by decide)
      (by decide) (by decide),
    C7_error_outcomes.2.2.2.2 cfgBasic st1 "$group:admin" _ false
      documentModelDesc (by decide) (by decide) rfl rfl (by decide)
      (by decide) (by decide)⟩

/-- C8 counterexample: two role-principal evaluations of the same
operation on the same options bag.  The first (for `$group:admin`)
allows and sets `groupAccessApplied` to `true`; the second (for
`$group:member`), started with the flag at `true`, ends with the flag
back at `false` — the flag is reset at the start of every evaluation,
so it is not write-once within the operation. -/
theorem C8_counterexample :
    resolve cfgExt st1 "$group:admin" ctxGroupInstance = (.allow, some true)
    ∧ resolve cfgExt st1 "$group:member"
        { ctxGroupInstance with options := some true } = (.deny, some false) :=
  ⟨by decide, by decide⟩

/-- Helper: for a decision of the shape taken by the final extended-mode
branch, the flag component equals the allow test of the outcome
component. -/
theorem flag_matches_allow_aux (p : Prop) [Decidable p] :
    ((if p then ((Outcome.allow, some true) : Outcome × Option Bool)
      else (Outcome.deny, some false)).2)
      = some (decide
          ((if p then ((Outcome.allow, some true) : Outcome × Option Bool)
            else (Outcome.deny, some false)).1 = Outcome.allow)) := by
  by_cases hP : p <;> simp [hP]

/-- C8 amended: each evaluation with a present user and options bag
first resets `groupAccessApplied` to `false`; within that single
evaluation the flag ends `true` exactly when the evaluation runs in
extended mode and allows (so it transitions false→true only on ALLOW),
and its final value does not depend on the value it held before the
evaluation — which is why the flag is not write-once across several
role-principal evaluations of one operation. -/
theorem C8_flag_write_per_evaluation (cfg : Options) (st : Store)
    (role : String) (ctx : EvalContext) (b : Bool)
    (hu : truthy ctx.userId = true) (ho : ctx.options = some b) :
    (resolve cfg st role ctx).2
      = some (cfg.applyToStatic
          && decide ((resolve cfg st role ctx).1 = .allow)) := by
  by_cases hmode : cfg.applyToStatic
  · cases hg : getCurrentGroupId cfg ctx with
    | err => simp [resolve, hu, ho, hmode, hg]
    | crash => simp [resolve, hu, ho, hmode, hg]
    | ok cur =>
      by_cases hc : truthy cur = true
      · by_cases hse : st.countErr = true
        · simp [resolve, hu, ho, hmode, hg, hc, hse]
        · simp only [resolve, hu, ho, hmode, hg, hc, hse,
            Bool.not_true, Bool.false_eq_true, if_false, ite_false,
            Bool.true_and]
          exact flag_matches_allow_aux _
      · simp [resolve, hu, ho, hmode, hg, hc]
  · rcases hm : ctx.model with _ | m
    · simp [resolve, hu, ho, hmode, hm]
    · by_cases hid : truthy ctx.modelId = true
      · simp [resolve, hu, ho, hmode, hm, hid]
      · simp [resolve, hu, ho, hmode, hm, hid]

/-- Witness for the amended C8 at a concrete allowing evaluation. -/
theorem C8_flag_write_witness :
    truthy ctxGroupInstance.userId = true
    ∧ (resolve cfgExt st1 "$group:admin" ctxGroupInstance).2
      = some (cfgExt.applyToStatic
          && decide ((resolve cfgExt st1 "$group:admin" ctxGroupInstance).1
            = .allow)) :=
  ⟨by decide,
    C8_flag_write_per_evaluation cfgExt st1 "$group:admin" ctxGroupInstance
      false (by decide) rfl⟩

/-- C9 counterexample: the configured entry `not-group:admin` does not
carry the `$group:` scope prefix, yet setup validation accepts it: no
fatal configuration error is raised. -/
theorem C9_counterexample :
    isValidPrincipalId "not-group:admin" = true
    ∧ specGroupRoleFormat "not-group:admin" = false
    ∧ validateGroupRoles ["not-group:admin"] = .ok () :=
  ⟨by decide, by decide, rfl⟩

/-- C9 amended: setup validation accepts exactly the entries whose first
colon is followed by a non-empty segment (the `$group:` prefix itself is
never checked); any other entry raises the fatal configuration error;
and every accepted entry yields a non-empty role name when the text up
to the first colon is stripped. -/
theorem C9_validation_characterisation :
    (∀ roles : List String,
      validateGroupRoles roles = .ok ()
        ↔ ∀ s ∈ roles, isValidPrincipalId s = true)
    ∧ (∀ s : String, isValidPrincipalId s = true →
        ∃ r, extractRoleName s = some r ∧ r ≠ "")
    ∧ (∀ roles : List String, validateGroupRoles roles ≠ .ok () →
        validateGroupRoles roles
          = .error "$name is an invalid access group name.") := by
  refine ⟨?_, ?_, ?_⟩
  · intro roles
    induction roles with
    | nil => simp [validateGroupRoles]
    | cons r rs ih =>
      by_cases h : isValidPrincipalId r = true
      · simp [validateGroupRoles, h, ih]
      · simp [validateGroupRoles, h]
  · intro s h
    unfold isValidPrincipalId at h
    cases he : extractRoleName s with
    | none => rw [he] at h; simp [truthy] at h
    | some r =>
      rw [he] at h
      refine ⟨r, rfl, ?_⟩
      simpa [truthy] using h
  · intro roles
    induction roles with
    | nil => intro h; simp [validateGroupRoles] at h
    | cons r rs ih =>
      intro h
      by_cases hv : isValidPrincipalId r = true
      · have := ih (by simpa [validateGroupRoles, hv] using h)
        simpa [validateGroupRoles, hv] using this
      · simp [validateGroupRoles, hv]

/-- Witness for the amended C9: the default configuration validates, a
well-formed entry yields its role name, and a colon-free entry is
rejected with the fatal error. -/
theorem C9_validation_witness :
    (validateGroupRoles ["$group:admin", "$group:member"] = .ok ()
      ↔ ∀ s ∈ ["$group:admin", "$group:member"], isValidPrincipalId s = true)
    ∧ (∃ r, extractRoleName "$group:admin" = some r ∧ r ≠ "")
    ∧ validateGroupRoles ["nocolon"]
      = .error "$name is an invalid access group name." :=
  ⟨C9_validation_characterisation.1 ["$group:admin", "$group:member"],
    C9_validation_characterisation.2.1 "$group:admin" (by decide),
    C9_validation_characterisation.2.2 ["nocolon"] (by
      intro h
      have h2 : (Except.error "$name is an invalid access group name."
          : Except String Unit) = .ok () := h
      exact Except.noConfusion h2)⟩

/-- C2 counterexample: a query-filter build for the group-access model
does not return the existing filter unchanged — it raises a `TypeError`
(the `isUserModel` predicate it calls is not defined on
`AccessUtils`). -/
theorem C2_counterexample :
    accessHookApplyFilter
      (buildFilter accessUtilsIsUserModelFn cfgExt st1 "u1" (some "g1")
        groupAccessModelDesc)
      (some (.leaf ⟨"name", .eq "x"⟩)) = .error
    ∧ HookResult.error ≠ .ok (some (.leaf ⟨"name", .eq "x"⟩)) :=
  ⟨by decide, by decide⟩

/-- C2 amended: for the User, Group and GroupAccess resource types (as
for every other type), the query-filter build step never returns the
existing filter unchanged: as written it raises a `TypeError`, because
the `isUserGroupOrAccessModel` test begins with a call to the undefined
`accessUtils.isUserModel`.  Even its evident intent would conjoin an
`inq` membership predicate rather than leave the filter unchanged. -/
theorem C2_trio_filter_always_errors (cfg : Options) (st : Store)
    (u : String) (g : Option String) (m : ModelDesc) (q : Option JsWhere)
    (h : m.name = cfg.userModel ∨ m.name = cfg.groupModel
      ∨ m.name = cfg.groupAccessModel) :
    accessHookApplyFilter (buildFilter accessUtilsIsUserModelFn cfg st u g m) q
      = .error
    ∧ accessHookApplyFilter (buildFilter accessUtilsIsUserModelFn cfg st u g m) q
      ≠ .ok q := by
  refine ⟨?_, ?_⟩ <;>
    simp [buildFilter, accessUtilsIsUserModelFn, accessHookApplyFilter]

/-- Witness for the amended C2 at the group model with no group id. -/
theorem C2_trio_filter_witness :
    accessHookApplyFilter
      (buildFilter accessUtilsIsUserModelFn cfgExt st1 "u1" none
        groupModelDesc) none = .error :=
  (C2_trio_filter_always_errors cfgExt st1 "u1" none groupModelDesc none
    (Or.inr (Or.inl rfl))).1

/-- C6 (code bug): for a group-content model the claim (and the
documented intent of `buildFilter`, realised verbatim by the sibling
copies of the function elsewhere in the repository) is `existingFilter
AND {groupKey = G}` when a group id `G` is present, and `existingFilter
AND {groupKey IN ids}` with the membership group ids otherwise; the
cited `buildFilter` instead raises a `TypeError` on every call, because
it begins by invoking `accessUtils.isUserModel`, which is not defined on
`AccessUtils`. -/
theorem C6_content_filter_crashes :
    accessHookApplyFilter
      (buildFilter accessUtilsIsUserModelFn cfgExt st1 "u1" (some "g1")
        documentModelDesc)
      (some (.leaf ⟨"title", .eq "t"⟩)) = .error
    ∧ HookResult.error
      ≠ .ok (some (.conj (.leaf ⟨"title", .eq "t"⟩)
          (.leaf ⟨"groupId", .eq "g1"⟩)))
    ∧ accessHookApplyFilter
        (buildFilter accessUtilsIsUserModelFn cfgExt st1 "u1" none
          documentModelDesc) none = .error
    ∧ HookResult.error
      ≠ .ok (some (.leaf ⟨"groupId", .inq (getAccessGroupIds st1 "u1")⟩)) :=
  ⟨by decide, by decide, by decide, by decide⟩

end AccessGroups
